import Mathlib

/-!
Verification of the sip-worker control plane: a shallow embedding of the
Hub (shared worker) and Edge (tab client) message protocol, the remote
session-description bridge, and the client registry, with theorems about
request/response correlation, settlement, and wire shapes.

JavaScript objects that travel on the channel are modelled by a small
JSON-like value type `JVal`; a missing field reads as `JVal.null`, which
also stands for JavaScript `undefined` (both are falsy and stringify on
the paths modelled here the same way in template literals we care about,
namely via `jvShow`).
-/

namespace SipWorker

/-- JSON-ish runtime values of the messages exchanged between Hub and Edge. -/
inductive JVal where
  | null
  | str (s : String)
  | num (n : Nat)
  | bool (b : Bool)
  | arr (xs : List JVal)
  | obj (fields : List (String × JVal))

/-- Field access `o.k` on a JavaScript object: missing fields and access on
non-objects read as `null` (standing for `undefined`). -/
def jGet : JVal → String → JVal
  | .obj fs, k =>
    match fs.lookup k with
    | some v => v
    | none => .null
  | _, _ => .null

/-- JavaScript truthiness of a value. -/
def jTruthy : JVal → Bool
  | .null => false
  | .str s => !(s == "")
  | .num n => !(n == 0)
  | .bool b => b
  | .arr _ => true
  | .obj _ => true

/-- Template-literal rendering of a value (`undefined` for a missing field). -/
def jvShow : JVal → String
  | .null => "undefined"
  | .str s => s
  | .num n => toString n
  | .bool b => if b then "true" else "false"
  | .arr _ => ""
  | .obj _ => "[object Object]"

/-- JavaScript `a || b`. -/
def jOr (a b : JVal) : JVal := if jTruthy a then a else b

/-- JavaScript strict equality `v === "s"` against a string literal. -/
def jIsStr (j : JVal) (s : String) : Bool :=
  match j with
  | .str t => t == s
  | _ => false

/-- `a || d` where the fallback is a plain string and the result is rendered. -/
def jStrOr (a : JVal) (d : String) : String :=
  if jTruthy a then jvShow a else d

/-- A serialized session description, mirroring `SessionDescriptionInit`
from `common/types`-adjacent worker code: `{ type, sdp }`. -/
structure SessionDescriptionInit where
  type : String
  sdp : String
deriving DecidableEq

/-! ## Edge peer-connection worker (`src/client/peer-connection-manager.ts`)

The Edge-side `SdpRequestType` enum.  Note that it has **no**
`getCompleteSdp` and no `sendDtmf` member; the `getCompleteSdp` method is
reachable only through the `GET_STATS` case of the dispatch. -/

def PcmOp.CREATE_OFFER : String := "createOffer"

def PcmOp.CREATE_ANSWER : String := "createAnswer"

def PcmOp.SET_LOCAL_DESCRIPTION : String := "setLocalDescription"

def PcmOp.SET_REMOTE_DESCRIPTION : String := "setRemoteDescription"

def PcmOp.GET_STATS : String := "getStats"

def PcmOp.ADD_ICE_CANDIDATE : String := "addIceCandidate"

def PcmOp.CLOSE : String := "close"

/-- The state of the Edge's `PeerConnectionManager` that the SDP dispatch
reads: whether `peerConnection` is non-null, and its `localDescription`. -/
structure PeerConn where
  initialized : Bool
  localDescription : Option SessionDescriptionInit

/-- Browser results for the WebRTC primitives the dispatch awaits
(`createOffer` / `createAnswer` are produced by the black-box
`RTCPeerConnection`). -/
structure BrowserSdp where
  offer : SessionDescriptionInit
  answer : SessionDescriptionInit

/-- `PeerConnectionManager.getCompleteSdp`: requires an initialized peer
connection and returns `{ sdp: localDescription?.sdp || "", type:
localDescription?.type }`. -/
def pcmGetCompleteSdp (pc : PeerConn) : Except String JVal :=
  if pc.initialized then
    .ok (.obj [("sdp", .str ((pc.localDescription.map (fun d => d.sdp)).getD "")),
               ("type", match pc.localDescription with
                        | some d => .str d.type
                        | none => .null)])
  else .error "PeerConnection is null"

/-- The string-keyed switch of `PeerConnectionManager.handleSdpRequest`,
given the destructured `operation` string. -/
def pcmDispatchStr (pc : PeerConn) (b : BrowserSdp) (op : String) : Except String JVal :=
  if op = PcmOp.CREATE_OFFER then
    if pc.initialized then
      .ok (.obj [("sdp", .str b.offer.sdp), ("type", .str b.offer.type)])
    else .error "PeerConnection is null"
  else if op = PcmOp.CREATE_ANSWER then
    if pc.initialized then
      .ok (.obj [("sdp", .str b.answer.sdp), ("type", .str b.answer.type)])
    else .error "PeerConnection is null"
  else if op = PcmOp.SET_LOCAL_DESCRIPTION then
    if pc.initialized then .ok (.obj [("success", .bool true)])
    else .error "PeerConnection is null"
  else if op = PcmOp.SET_REMOTE_DESCRIPTION then
    if pc.initialized then .ok (.obj [("success", .bool true)])
    else .error "PeerConnection is null"
  else if op = PcmOp.GET_STATS then
    pcmGetCompleteSdp pc
  else if op = PcmOp.ADD_ICE_CANDIDATE then
    if pc.initialized then .ok (.obj [("success", .bool true)])
    else .error "PeerConnection not initialized"
  else if op = PcmOp.CLOSE then
    .ok (.obj [("success", .bool true)])
  else
    .error ("Unknown SDP operation: " ++ op)

/-- `PeerConnectionManager.handleSdpRequest(payload)` destructures
`const { operation, requestId, data, options } = payload` and switches on
`operation`; a non-string `operation` (in particular `undefined`) matches
no case and raises the default error. -/
def pcmHandleSdpRequest (pc : PeerConn) (b : BrowserSdp) (payload : JVal) : Except String JVal :=
  match jGet payload "operation" with
  | .str op => pcmDispatchStr pc b op
  | other => .error ("Unknown SDP operation: " ++ jvShow other)

/-! ## Hub-side wire shapes (`WorkerSessionDescriptionHandler._sendSdpRequest`
and `WorkerSessionDescriptionHandlerFactory.handleSdpResponse`) -/

/-- The `SDP_REQUEST` payload the Hub constructs:
`{ sessionId, request: { operation, requestId, data, options } }`. -/
def hubSdpRequestPayload (sessionId operation requestId : String)
    (data options : JVal) : JVal :=
  .obj [("sessionId", .str sessionId),
        ("request", .obj [("operation", .str operation),
                          ("requestId", .str requestId),
                          ("data", data),
                          ("options", options)])]

/-- The `SDP_RESPONSE` payload the Edge constructs
(`SipClient.handleSdpRequest` in the client): on success
`{ requestId: payload.requestId, result }`, on failure
`{ requestId: payload.requestId, error: { message, name } }`.
The Edge hands the *whole* `SDP_REQUEST` payload to the
peer-connection dispatch. -/
def edgeServiceSdpRequest (pc : PeerConn) (b : BrowserSdp) (payload : JVal) : JVal :=
  match pcmHandleSdpRequest pc b payload with
  | .ok result =>
      .obj [("requestId", jGet payload "requestId"), ("result", result)]
  | .error msg =>
      .obj [("requestId", jGet payload "requestId"),
            ("error", .obj [("message", .str msg), ("name", .str "Error")])]

/-- The factory's router for inbound `SDP_RESPONSE` payloads: it drops the
payload unless `payload.sessionId` is truthy and a handler is registered
under `(clientId, sessionId)`; otherwise it forwards `payload.response`
to that handler.  `sessions` lists the registered `(clientId, sessionId)`
pairs. -/
def factoryRouteSdpResponse (sessions : List (String × String))
    (clientId : String) (payload : JVal) : Option (String × JVal) :=
  if jTruthy (jGet payload "sessionId") then
    match jGet payload "sessionId" with
    | .str sid =>
        if sessions.contains (clientId, sid) then
          some (sid, jGet payload "response")
        else none
    | _ => none
  else none

/-- Modelled from the spec: the `SDP_RESPONSE` payload shape the protocol
section prescribes, `{ sessionId, response: { requestId, result?, error? } }`
(code of this repository producing it is only prescribed by the spec; the
Edge in `src` does not build it). -/
def specSdpResponsePayload (sessionId requestId : String)
    (result : JVal) (error : JVal) : JVal :=
  .obj [("sessionId", .str sessionId),
        ("response", .obj [("requestId", .str requestId),
                           ("result", result),
                           ("error", error)])]

/-- A peer connection with `initialize()` done and a local description set. -/
def pcReady : PeerConn :=
  { initialized := true,
    localDescription := some { type := "offer", sdp := "v=0 local" } }

/-- Fixed browser outputs for the black-box WebRTC calls. -/
def browserFix : BrowserSdp :=
  { offer := { type := "offer", sdp := "v=0 offer" },
    answer := { type := "answer", sdp := "v=0 answer" } }

/-- C5: the claim fails on the code.  For an `SDP_REQUEST` with operation
`getCompleteSdp` and an initialized peer connection, the Edge dispatch does
NOT reply with the local description's SDP: `getCompleteSdp` is missing from
the Edge's `SdpRequestType`, so the operation falls to the default case and
raises `Unknown SDP operation: getCompleteSdp`; the local-description reply
is instead reachable only under the operation string `getStats`. -/
theorem c5_getCompleteSdp_dispatch_errors :
    pcmDispatchStr pcReady browserFix "getCompleteSdp"
      = .error "Unknown SDP operation: getCompleteSdp"
    ∧ pcmDispatchStr pcReady browserFix "getStats"
      = .ok (.obj [("sdp", .str "v=0 local"), ("type", .str "offer")]) := by
  constructor <;> rfl

/-- C3: the claim fails on the code.  For the Hub-constructed `SDP_REQUEST`
payload `{sessionId:"s1", request:{operation:"createOffer", requestId:"r1"}}`,
the Edge's `SDP_RESPONSE` payload carries no `sessionId` and no nested
`response` (and even its `requestId` is undefined, because the Edge reads
`operation`/`requestId` at the top level of the payload instead of inside
`request`), so the factory's router drops the reply instead of correlating
it; the reply also differs from the spec-prescribed shape. -/
theorem c3_edge_reply_not_routable :
    (let p := hubSdpRequestPayload "s1" "createOffer" "r1" JVal.null JVal.null
     let reply := edgeServiceSdpRequest pcReady browserFix p
     jGet reply "sessionId" = JVal.null
     ∧ jGet reply "response" = JVal.null
     ∧ jGet reply "requestId" = JVal.null
     ∧ jGet (jGet reply "error") "message"
         = JVal.str "Unknown SDP operation: undefined"
     ∧ factoryRouteSdpResponse [("c1", "s1")] "c1" reply = none
     ∧ ∀ res err : JVal, reply ≠ specSdpResponsePayload "s1" "r1" res err) := by
  refine ⟨rfl, rfl, rfl, rfl, rfl, fun res err hcontra => ?_⟩
  have h2 : JVal.null = JVal.str "s1" := by
    calc JVal.null
        = jGet (edgeServiceSdpRequest pcReady browserFix
            (hubSdpRequestPayload "s1" "createOffer" "r1" JVal.null JVal.null))
            "sessionId" := rfl
      _ = jGet (specSdpResponsePayload "s1" "r1" res err) "sessionId" := by
            rw [hcontra]
      _ = JVal.str "s1" := rfl
  exact JVal.noConfusion h2

/-! ## The Hub's remote session-description handler
(`WorkerSessionDescriptionHandler` in `common/types`-adjacent worker code).

The handler state carries exactly the fields of the class that the claims
touch; `pendingIds` is the key set of the `pendingRequests` map (one entry
per issued, not-yet-settled SDP request with its armed timer). -/

/-- A serialized ICE candidate. -/
structure IceCandidate where
  candidate : String
  sdpMid : Option String
  sdpMLineIndex : Option Nat
  usernameFragment : Option String
deriving DecidableEq

/-- Mutable state of a `WorkerSessionDescriptionHandler`. -/
structure Handler where
  clientId : Option String
  sessionId : String
  closed : Bool
  trickleCandidates : Bool
  iceGatheringTimeout : Nat
  requestTimeout : Nat
  localDescription : Option SessionDescriptionInit
  remoteDescription : Option SessionDescriptionInit
  iceCandidates : List IceCandidate
  iceGatheringState : String
  connectionState : String
  pendingIds : List String

/-- Constructor options (`WorkerSessionDescriptionHandlerOptions`). -/
structure SdhOptions where
  clientId : Option String
  iceGatheringTimeout : Option Nat
  trickleCandidates : Option Bool

/-- The constructor: `iceGatheringTimeout = options?.iceGatheringTimeout || 5000`,
`trickleCandidates = options?.trickleCandidates !== false`,
`requestTimeout = 30000`, everything else fresh. -/
def mkHandler (sessionId : String) (o : SdhOptions) : Handler :=
  { clientId := o.clientId
    sessionId := sessionId
    closed := false
    trickleCandidates := o.trickleCandidates != some false
    iceGatheringTimeout :=
      match o.iceGatheringTimeout with
      | some n => if n = 0 then 5000 else n
      | none => 5000
    requestTimeout := 30000
    localDescription := none
    remoteDescription := none
    iceCandidates := []
    iceGatheringState := "new"
    connectionState := "new"
    pendingIds := [] }

/-- One settlement of a pending SDP request's promise, tagged by its cause. -/
inductive Settle where
  | resolved (rid : String)
  | rejectedError (rid : String) (msg : String)
  | rejectedTimeout (rid : String)
  | rejectedClosed (rid : String)
  | rejectedSendFail (rid : String)
deriving DecidableEq

/-- The request id a settlement concerns. -/
def Settle.rid : Settle → String
  | .resolved r => r
  | .rejectedError r _ => r
  | .rejectedTimeout r => r
  | .rejectedClosed r => r
  | .rejectedSendFail r => r

/-- An operation sent to the Edge over the channel (`SDP_REQUEST` content). -/
inductive WireOp where
  | createOffer
  | createAnswer
  | setLocalDescription (d : SessionDescriptionInit)
  | setRemoteDescription (d : SessionDescriptionInit)
  | getCompleteSdp
  | addIceCandidate (c : IceCandidate)
  | sendDtmf (tones : String)
  | closeConn
deriving DecidableEq

/-- `handleClientMessage(response)`: look up the pending entry by
`requestId`; if absent, log and drop; otherwise delete it, clear its
timer, and reject on a (truthy) error else resolve with the result. -/
def handleClientMessage (h : Handler) (rid : String) (err : Option String) :
    Handler × List Settle :=
  if rid ∈ h.pendingIds then
    ({ h with pendingIds := h.pendingIds.filter (fun x => x != rid) },
     [match err with
      | some e => Settle.rejectedError rid e
      | none => Settle.resolved rid])
  else (h, [])

/-- The request timer of `_sendSdpRequest` firing after `requestTimeout`:
if the entry is still pending, delete it and reject with the timeout
error; otherwise do nothing. -/
def timerExpire (h : Handler) (rid : String) : Handler × List Settle :=
  if rid ∈ h.pendingIds then
    ({ h with pendingIds := h.pendingIds.filter (fun x => x != rid) },
     [Settle.rejectedTimeout rid])
  else (h, [])

/-- `close()`: idempotent on the `closed` flag; otherwise set `closed`,
reject every pending request with the terminal closed error and clear the
map, then best-effort send a `CLOSE` request to the Edge (which, when the
send succeeds, re-enters the pending map under a fresh id `closeRid`; when
it fails, its promise is rejected at once and the rejection swallowed),
and drop the candidate list and both descriptions. -/
def closeHandler (h : Handler) (closeRid : String) (sendOk : Bool) :
    Handler × List Settle × List WireOp :=
  if h.closed then (h, [], [])
  else
    ({ h with
        closed := true
        pendingIds := if sendOk then [closeRid] else []
        iceCandidates := []
        localDescription := none
        remoteDescription := none },
     h.pendingIds.map Settle.rejectedClosed
       ++ (if sendOk then [] else [Settle.rejectedSendFail closeRid]),
     [WireOp.closeConn])

/-- An asynchronous event that can settle pending SDP requests: a matching
`SDP_RESPONSE` routed to `handleClientMessage`, a request timer firing, or
a `close()` call. -/
inductive SdhEvent where
  | response (rid : String) (err : Option String)
  | timerFire (rid : String)
  | closeEvt (closeRid : String) (sendOk : Bool)
deriving DecidableEq

/-- One event step of the handler. -/
def sdhStep (h : Handler) (e : SdhEvent) : Handler × List Settle :=
  match e with
  | .response rid err => handleClientMessage h rid err
  | .timerFire rid => timerExpire h rid
  | .closeEvt crid ok => ((closeHandler h crid ok).1, (closeHandler h crid ok).2.1)

/-- Run a sequence of events, accumulating the settlements they produce. -/
def sdhRun : Handler → List SdhEvent → Handler × List Settle
  | h, [] => (h, [])
  | h, e :: es =>
    ((sdhRun (sdhStep h e).1 es).1, (sdhStep h e).2 ++ (sdhRun (sdhStep h e).1 es).2)

/-- How many settlements in `l` concern request `rid`. -/
def settleCount (rid : String) (l : List Settle) : Nat :=
  (l.filter (fun s => s.rid == rid)).length

/-- Whether an event is capable of settling request `rid`. -/
def settlesRid (rid : String) : SdhEvent → Bool
  | .response r _ => r == rid
  | .timerFire r => r == rid
  | .closeEvt _ _ => true

/-- Whether an event avoids reusing `rid` as the fresh id of a `CLOSE`
request (guaranteed in the source because ids are fresh UUIDs). -/
def freshFor (rid : String) : SdhEvent → Bool
  | .closeEvt crid _ => !(crid == rid)
  | _ => true

theorem settleCount_append (rid : String) (a b : List Settle) :
    settleCount rid (a ++ b) = settleCount rid a + settleCount rid b := by
  simp [settleCount, List.filter_append]

theorem settleCount_map_rejectedClosed (rid : String) (l : List String) :
    settleCount rid (l.map Settle.rejectedClosed) = l.count rid := by
  induction l with
  | nil => rfl
  | cons a l ih =>
    by_cases har : a = rid
    · subst har
      simp [settleCount, Settle.rid, List.count_cons] at ih ⊢
      omega
    · simp [settleCount, Settle.rid, List.count_cons, har] at ih ⊢
      simpa [har] using ih

theorem mem_filter_ne_of_mem {l : List String} {a r : String}
    (ha : a ∈ l) (hne : a ≠ r) : a ∈ l.filter (fun x => x != r) := by
  simp [List.mem_filter, ha, hne]

theorem not_mem_filter_ne_self (l : List String) (r : String) :
    r ∉ l.filter (fun x => x != r) := by
  simp [List.mem_filter]

theorem not_mem_filter_ne_of_not_mem {l : List String} {a : String}
    (r : String) (h : a ∉ l) : a ∉ l.filter (fun x => x != r) := by
  simp [List.mem_filter]
  intro hmem
  exact absurd hmem h

theorem settleCount_singleton (rid : String) (s : Settle) :
    settleCount rid [s] = if s.rid = rid then 1 else 0 := by
  by_cases hsr : s.rid = rid <;> simp [settleCount, hsr]

theorem sdhRun_cons (h : Handler) (e : SdhEvent) (es : List SdhEvent) :
    sdhRun h (e :: es)
      = ((sdhRun (sdhStep h e).1 es).1, (sdhStep h e).2 ++ (sdhRun (sdhStep h e).1 es).2) :=
  rfl

/-- Once `rid` has no pending entry, no later event settles it again and it
never re-enters the pending map (given `CLOSE` requests use fresh ids). -/
theorem sdh_absent_run (rid : String) :
    ∀ (tr : List SdhEvent) (h : Handler),
    rid ∉ h.pendingIds →
    (∀ e ∈ tr, freshFor rid e = true) →
    settleCount rid (sdhRun h tr).2 = 0 ∧ rid ∉ (sdhRun h tr).1.pendingIds := by
  intro tr
  induction tr with
  | nil =>
    intro h hab _
    exact ⟨rfl, hab⟩
  | cons e es ih =>
    intro h hab hfr
    have hfr2 : ∀ x ∈ es, freshFor rid x = true := fun x hx => hfr x (by simp [hx])
    have hsc : settleCount rid (sdhStep h e).2 = 0 := by
      cases e with
      | response r err =>
        by_cases hr : r ∈ h.pendingIds
        · have hrne : r ≠ rid := fun hcontra => hab (hcontra ▸ hr)
          cases err <;> simp [sdhStep, handleClientMessage, hr, settleCount, Settle.rid, hrne]
        · simp [sdhStep, handleClientMessage, hr, settleCount]
      | timerFire r =>
        by_cases hr : r ∈ h.pendingIds
        · have hrne : r ≠ rid := fun hcontra => hab (hcontra ▸ hr)
          simp [sdhStep, timerExpire, hr, settleCount, Settle.rid, hrne]
        · simp [sdhStep, timerExpire, hr, settleCount]
      | closeEvt crid ok =>
        have hcrid : crid ≠ rid := by
          have := hfr (SdhEvent.closeEvt crid ok) (by simp)
          simpa [freshFor] using this
        by_cases hcl : h.closed
        · simp [sdhStep, closeHandler, hcl, settleCount]
        · have hcount : h.pendingIds.count rid = 0 := List.count_eq_zero.mpr hab
          rw [sdhStep, closeHandler, if_neg hcl]
          rw [settleCount_append, settleCount_map_rejectedClosed, hcount]
          cases ok
          · simp [settleCount_singleton, Settle.rid, hcrid]
          · simp [settleCount]
    have hmem2 : rid ∉ (sdhStep h e).1.pendingIds := by
      cases e with
      | response r err =>
        by_cases hr : r ∈ h.pendingIds
        · simp only [sdhStep, handleClientMessage, if_pos hr]
          exact not_mem_filter_ne_of_not_mem r hab
        · simpa [sdhStep, handleClientMessage, hr] using hab
      | timerFire r =>
        by_cases hr : r ∈ h.pendingIds
        · simp only [sdhStep, timerExpire, if_pos hr]
          exact not_mem_filter_ne_of_not_mem r hab
        · simpa [sdhStep, timerExpire, hr] using hab
      | closeEvt crid ok =>
        have hcrid : crid ≠ rid := by
          have := hfr (SdhEvent.closeEvt crid ok) (by simp)
          simpa [freshFor] using this
        by_cases hcl : h.closed
        · simpa [sdhStep, closeHandler, hcl] using hab
        · cases ok <;> simp [sdhStep, closeHandler, hcl, Ne.symm hcrid]
    have hrest := ih (sdhStep h e).1 hmem2 hfr2
    rw [sdhRun_cons]
    exact ⟨by rw [settleCount_append, hsc, hrest.1], hrest.2⟩

/-- While `rid` is pending (uniquely, handler not closed), running any event
sequence settles it exactly once if the sequence contains a settling event
for it — a matching response, its timer, or a `close()` — and zero times
otherwise. -/
theorem sdh_pending_run (rid : String) :
    ∀ (tr : List SdhEvent) (h : Handler),
    rid ∈ h.pendingIds → h.pendingIds.Nodup → h.closed = false →
    (∀ e ∈ tr, freshFor rid e = true) →
    settleCount rid (sdhRun h tr).2 = (if tr.any (settlesRid rid) then 1 else 0) := by
  intro tr
  induction tr with
  | nil => intro h _ _ _ _; rfl
  | cons e es ih =>
    intro h hmem hnd hcl hfr
    have hfr2 : ∀ x ∈ es, freshFor rid x = true := fun x hx => hfr x (by simp [hx])
    by_cases hset : settlesRid rid e = true
    · -- the head event settles `rid` now; afterwards it is absent.
      have hsc : settleCount rid (sdhStep h e).2 = 1 := by
        cases e with
        | response r err =>
          have hreq : r = rid := by simpa [settlesRid] using hset
          subst hreq
          cases err <;> simp [sdhStep, handleClientMessage, hmem, settleCount, Settle.rid]
        | timerFire r =>
          have hreq : r = rid := by simpa [settlesRid] using hset
          subst hreq
          simp [sdhStep, timerExpire, hmem, settleCount, Settle.rid]
        | closeEvt crid ok =>
          have hcrid : crid ≠ rid := by
            have := hfr (SdhEvent.closeEvt crid ok) (by simp)
            simpa [freshFor] using this
          have hcount : h.pendingIds.count rid = 1 := List.count_eq_one_of_mem hnd hmem
          rw [sdhStep, closeHandler, if_neg (by simp [hcl])]
          rw [settleCount_append, settleCount_map_rejectedClosed, hcount]
          cases ok
          · simp [settleCount_singleton, Settle.rid, hcrid]
          · simp [settleCount]
      have hmem2 : rid ∉ (sdhStep h e).1.pendingIds := by
        cases e with
        | response r err =>
          have hreq : r = rid := by simpa [settlesRid] using hset
          subst hreq
          simp only [sdhStep, handleClientMessage, if_pos hmem]
          exact not_mem_filter_ne_self _ _
        | timerFire r =>
          have hreq : r = rid := by simpa [settlesRid] using hset
          subst hreq
          simp only [sdhStep, timerExpire, if_pos hmem]
          exact not_mem_filter_ne_self _ _
        | closeEvt crid ok =>
          have hcrid : crid ≠ rid := by
            have := hfr (SdhEvent.closeEvt crid ok) (by simp)
            simpa [freshFor] using this
          cases ok <;> simp [sdhStep, closeHandler, hcl, Ne.symm hcrid]
      have hrest := sdh_absent_run rid es (sdhStep h e).1 hmem2 hfr2
      rw [sdhRun_cons, settleCount_append, hsc, hrest.1]
      simp [List.any_cons, hset]
    · -- the head event does not settle `rid`: state facts are preserved.
      have hne : ∀ r : String, e = SdhEvent.response r (none : Option String) → r ≠ rid := by
        intro r he hcontra
        rw [he, hcontra] at hset
        exact hset (by simp [settlesRid])
      have hsc : settleCount rid (sdhStep h e).2 = 0 := by
        cases e with
        | response r err =>
          have hreq : r ≠ rid := by
            intro hcontra
            rw [hcontra] at hset
            exact hset (by simp [settlesRid])
          by_cases hr : r ∈ h.pendingIds
          · cases err <;> simp [sdhStep, handleClientMessage, hr, settleCount, Settle.rid, hreq]
          · simp [sdhStep, handleClientMessage, hr, settleCount]
        | timerFire r =>
          have hreq : r ≠ rid := by
            intro hcontra
            rw [hcontra] at hset
            exact hset (by simp [settlesRid])
          by_cases hr : r ∈ h.pendingIds
          · simp [sdhStep, timerExpire, hr, settleCount, Settle.rid, hreq]
          · simp [sdhStep, timerExpire, hr, settleCount]
        | closeEvt crid ok => exact absurd (by simp [settlesRid]) hset
      have hpres : rid ∈ (sdhStep h e).1.pendingIds ∧
          (sdhStep h e).1.pendingIds.Nodup ∧ (sdhStep h e).1.closed = false := by
        cases e with
        | response r err =>
          have hreq : r ≠ rid := by
            intro hcontra
            rw [hcontra] at hset
            exact hset (by simp [settlesRid])
          by_cases hr : r ∈ h.pendingIds
          · refine ⟨?_, ?_, ?_⟩
            · simp only [sdhStep, handleClientMessage, if_pos hr]
              exact mem_filter_ne_of_mem hmem (fun hcontra => hreq hcontra.symm)
            · simp only [sdhStep, handleClientMessage, if_pos hr]
              exact hnd.filter _
            · simp [sdhStep, handleClientMessage, hr, hcl]
          · simpa [sdhStep, handleClientMessage, hr] using ⟨hmem, hnd, hcl⟩
        | timerFire r =>
          have hreq : r ≠ rid := by
            intro hcontra
            rw [hcontra] at hset
            exact hset (by simp [settlesRid])
          by_cases hr : r ∈ h.pendingIds
          · refine ⟨?_, ?_, ?_⟩
            · simp only [sdhStep, timerExpire, if_pos hr]
              exact mem_filter_ne_of_mem hmem (fun hcontra => hreq hcontra.symm)
            · simp only [sdhStep, timerExpire, if_pos hr]
              exact hnd.filter _
            · simp [sdhStep, timerExpire, hr, hcl]
          · simpa [sdhStep, timerExpire, hr] using ⟨hmem, hnd, hcl⟩
        | closeEvt crid ok => exact absurd (by simp [settlesRid]) hset
      have hrest := ih (sdhStep h e).1 hpres.1 hpres.2.1 hpres.2.2 hfr2
      rw [sdhRun_cons, settleCount_append, hsc, hrest]
      simp [List.any_cons, hset]

/-- C1: every RSDB request dispatched through `_sendSdpRequest` (so `rid` is
pending with its timer armed, ids unique, handler not closed) is settled at
most once over any event sequence, and exactly once as soon as the sequence
contains a settling event for it; the only settling causes are a matching
response (resolving on result, rejecting on error), the request timer
(whose duration defaults to the constructor's `requestTimeout` of 30000 ms),
and `close()`, which rejects every outstanding request with the terminal
closed error. -/
theorem c1_rsdb_request_settles_exactly_once
    (h : Handler) (rid : String) (tr : List SdhEvent) (sid : String) (o : SdhOptions)
    (hmem : rid ∈ h.pendingIds) (hnd : h.pendingIds.Nodup) (hcl : h.closed = false)
    (hfr : ∀ e ∈ tr, freshFor rid e = true) :
    settleCount rid (sdhRun h tr).2 ≤ 1
    ∧ ((∃ e ∈ tr, settlesRid rid e = true) → settleCount rid (sdhRun h tr).2 = 1)
    ∧ handleClientMessage h rid none
        = ({ h with pendingIds := h.pendingIds.filter (fun x => x != rid) },
           [Settle.resolved rid])
    ∧ (∀ emsg, handleClientMessage h rid (some emsg)
        = ({ h with pendingIds := h.pendingIds.filter (fun x => x != rid) },
           [Settle.rejectedError rid emsg]))
    ∧ timerExpire h rid
        = ({ h with pendingIds := h.pendingIds.filter (fun x => x != rid) },
           [Settle.rejectedTimeout rid])
    ∧ (∀ crid ok, Settle.rejectedClosed rid ∈ (closeHandler h crid ok).2.1)
    ∧ (mkHandler sid o).requestTimeout = 30000 := by
  have hrun := sdh_pending_run rid tr h hmem hnd hcl hfr
  refine ⟨?_, ?_, ?_, ?_, ?_, ?_, rfl⟩
  · rw [hrun]
    by_cases hany : tr.any (settlesRid rid) <;> simp [hany]
  · intro hex
    have hany : tr.any (settlesRid rid) = true := List.any_eq_true.mpr hex
    rw [hrun, if_pos hany]
  · simp [handleClientMessage, hmem]
  · intro emsg
    simp [handleClientMessage, hmem]
  · simp [timerExpire, hmem]
  · intro crid ok
    have hcl2 : ¬(h.closed = true) := by simp [hcl]
    simp only [closeHandler, if_neg hcl2]
    simp only [List.mem_append, List.mem_map]
    exact Or.inl ⟨rid, hmem, rfl⟩

/-! ## `getDescription`, `setDescription`, `sendDtmf`

Each SDH call that awaits the Edge is modelled as one atomic function whose
oracle arguments are the Edge's (eventual) replies to the requests issued
along the way; the function returns the updated handler state, the ordered
list of operations sent, and the call's outcome. -/

/-- Oracle for the replies a `getDescription` call can await. -/
structure GetDescReplies where
  createReply : Except String SessionDescriptionInit
  setLocalReply : Except String Unit
  completeReply : Except String SessionDescriptionInit
  iceCompletedInTime : Bool

/-- How `_waitForIceGathering` resolved: gathering already/eventually
complete, or the `iceGatheringTimeout` elapsed (it resolves either way and
never rejects). -/
inductive IceWaitOutcome where
  | completed
  | timedOut
deriving DecidableEq

/-- `_waitForIceGathering`: immediate return when the gathering state is
already `"complete"`, else polling until completion or timeout. -/
def waitForIceGathering (h : Handler) (completedInTime : Bool) : IceWaitOutcome :=
  if h.iceGatheringState = "complete" then .completed
  else if completedInTime then .completed else .timedOut

/-- The value `getDescription` resolves with. -/
structure BodyAndContentType where
  body : String
  contentType : String
deriving DecidableEq

/-- Result of a `getDescription` call. -/
structure GetDescOut where
  state : Handler
  ops : List WireOp
  iceWait : Option IceWaitOutcome
  outcome : Except String BodyAndContentType

/-- `getDescription(options)`: reject at once when closed; else send
`CREATE_OFFER` when no remote description has been set yet (else
`CREATE_ANSWER`), record the returned SDP as `localDescription`, send
`SET_LOCAL_DESCRIPTION`; in non-trickle mode additionally wait for ICE
gathering, fetch the complete SDP with `GET_COMPLETE_SDP` and replace
`localDescription`; resolve with
`{ body: localDescription.sdp, contentType: "application/sdp" }`. -/
def getDescription (h : Handler) (r : GetDescReplies) : GetDescOut :=
  if h.closed then
    { state := h, ops := [], iceWait := none,
      outcome := .error "SessionDescriptionHandler closed" }
  else
    let isOffer := h.remoteDescription.isNone
    let createOp := if isOffer then WireOp.createOffer else WireOp.createAnswer
    match r.createReply with
    | .error e => { state := h, ops := [createOp], iceWait := none, outcome := .error e }
    | .ok sdpReply =>
      let d1 : SessionDescriptionInit :=
        { type := if isOffer then "offer" else "answer", sdp := sdpReply.sdp }
      let h1 := { h with localDescription := some d1 }
      if h.trickleCandidates = false then
        match r.setLocalReply with
        | .error e =>
            { state := h1, ops := [createOp, .setLocalDescription d1],
              iceWait := none, outcome := .error e }
        | .ok _ =>
          let w := waitForIceGathering h1 r.iceCompletedInTime
          match r.completeReply with
          | .error e =>
              { state := h1,
                ops := [createOp, .setLocalDescription d1, .getCompleteSdp],
                iceWait := some w, outcome := .error e }
          | .ok completeSdp =>
            let d2 : SessionDescriptionInit :=
              { type := if isOffer then "offer" else "answer", sdp := completeSdp.sdp }
            { state := { h1 with localDescription := some d2 },
              ops := [createOp, .setLocalDescription d1, .getCompleteSdp],
              iceWait := some w,
              outcome := .ok { body := d2.sdp, contentType := "application/sdp" } }
      else
        match r.setLocalReply with
        | .error e =>
            { state := h1, ops := [createOp, .setLocalDescription d1],
              iceWait := none, outcome := .error e }
        | .ok _ =>
            { state := h1, ops := [createOp, .setLocalDescription d1],
              iceWait := none,
              outcome := .ok { body := d1.sdp, contentType := "application/sdp" } }

/-- Result of a `setDescription` call. -/
structure SetDescOut where
  state : Handler
  ops : List WireOp
  outcome : Except String Unit

/-- `setDescription(sdpText)`: reject at once when closed; classify as offer
iff no remote description exists yet, store it, on an offer reset the
candidate list and gathering state, then send `SET_REMOTE_DESCRIPTION`. -/
def setDescription (h : Handler) (sdpText : String)
    (setRemoteReply : Except String Unit) : SetDescOut :=
  if h.closed then
    { state := h, ops := [], outcome := .error "SessionDescriptionHandler closed" }
  else
    let t := if h.remoteDescription.isSome then "answer" else "offer"
    let d : SessionDescriptionInit := { type := t, sdp := sdpText }
    let h1 :=
      if t = "offer" then
        { h with remoteDescription := some d, iceCandidates := [],
                 iceGatheringState := "new" }
      else { h with remoteDescription := some d }
    { state := h1, ops := [WireOp.setRemoteDescription d],
      outcome := setRemoteReply }

/-- `sendDtmf(tones)`: returns `false` without sending when closed; else
fire-and-forget a `SEND_DTMF` request and return `true`. -/
def sendDtmfCall (h : Handler) (tones : String) : Handler × List WireOp × Bool :=
  if h.closed then (h, [], false)
  else (h, [WireOp.sendDtmf tones], true)

/-- `handleIceCandidate`: append a non-null candidate (delivering it to the
delegate in trickle mode, echoing `ADD_ICE_CANDIDATE` in non-trickle mode);
a null candidate marks gathering complete. -/
def handleIceCandidateEvt (h : Handler) (c : Option IceCandidate) :
    Handler × List WireOp :=
  match c with
  | some cand =>
      ({ h with iceCandidates := h.iceCandidates ++ [cand] },
       if h.trickleCandidates then [] else [WireOp.addIceCandidate cand])
  | none => ({ h with iceGatheringState := "complete" }, [])

/-- `handleConnectionStateChange`. -/
def handleConnStateEvt (h : Handler) (st : String) : Handler :=
  { h with connectionState := st }

/-- `handleIceGatheringStateChange`. -/
def handleIceGathStateEvt (h : Handler) (st : String) : Handler :=
  { h with iceGatheringState := st }

/-- Any modelled operation or event on a handler. -/
inductive HOp where
  | getDesc (r : GetDescReplies)
  | setDesc (sdpText : String) (reply : Except String Unit)
  | dtmf (tones : String)
  | closeCall (closeRid : String) (sendOk : Bool)
  | clientMessage (rid : String) (err : Option String)
  | timer (rid : String)
  | iceCandidate (c : Option IceCandidate)
  | connState (st : String)
  | iceGathState (st : String)

/-- The handler state after applying an operation. -/
def applyHOp (h : Handler) : HOp → Handler
  | .getDesc r => (getDescription h r).state
  | .setDesc sdpText reply => (setDescription h sdpText reply).state
  | .dtmf tones => (sendDtmfCall h tones).1
  | .closeCall crid ok => (closeHandler h crid ok).1
  | .clientMessage rid err => (handleClientMessage h rid err).1
  | .timer rid => (timerExpire h rid).1
  | .iceCandidate c => (handleIceCandidateEvt h c).1
  | .connState st => handleConnStateEvt h st
  | .iceGathState st => handleIceGathStateEvt h st

/-- C4: on a non-closed handler, `getDescription` sends `createOffer`
exactly when no remote description has been set (else `createAnswer`),
records the Edge-returned SDP as `localDescription`, follows with
`setLocalDescription`; with trickle off it additionally waits for ICE
gathering (complete or timeout), fetches `getCompleteSdp`, and replaces
`localDescription` with the completed form; it resolves with
`{ body: localDescription.sdp, contentType: "application/sdp" }`. -/
theorem c4_getDescription_flow (h : Handler) (r : GetDescReplies)
    (s1 sC : SessionDescriptionInit)
    (hcl : h.closed = false)
    (hc1 : r.createReply = .ok s1)
    (hc2 : r.setLocalReply = .ok ())
    (hc3 : r.completeReply = .ok sC) :
    (let isOffer := h.remoteDescription.isNone
     let createOp := if isOffer then WireOp.createOffer else WireOp.createAnswer
     let d1 : SessionDescriptionInit :=
       { type := if isOffer then "offer" else "answer", sdp := s1.sdp }
     let dC : SessionDescriptionInit :=
       { type := if isOffer then "offer" else "answer", sdp := sC.sdp }
     let out := getDescription h r
     (out.ops = if h.trickleCandidates then
          [createOp, WireOp.setLocalDescription d1]
        else [createOp, WireOp.setLocalDescription d1, WireOp.getCompleteSdp])
     ∧ out.state.localDescription = some (if h.trickleCandidates then d1 else dC)
     ∧ out.iceWait = (if h.trickleCandidates then none
        else some (waitForIceGathering { h with localDescription := some d1 }
                    r.iceCompletedInTime))
     ∧ out.outcome
         = .ok { body := (if h.trickleCandidates then d1 else dC).sdp,
                 contentType := "application/sdp" }) := by
  by_cases ht : h.trickleCandidates <;>
    simp [getDescription, hcl, hc1, hc2, hc3, ht]

/-- A fresh handler bound to client `c1` with trickle ICE disabled. -/
def hNT : Handler := mkHandler "s2" ⟨some "c1", none, some false⟩

/-- Concrete Edge replies for a `getDescription` run. -/
def rNT : GetDescReplies :=
  { createReply := .ok { type := "offer", sdp := "v=0 a" }
    setLocalReply := .ok ()
    completeReply := .ok { type := "offer", sdp := "v=0 c" }
    iceCompletedInTime := true }

/-- Witness for C4: a concrete non-trickle run produces the three-step
operation sequence and resolves with the completed SDP body. -/
theorem c4_getDescription_flow_witness :
    (hNT.closed = false ∧ rNT.createReply = .ok { type := "offer", sdp := "v=0 a" }
      ∧ rNT.setLocalReply = .ok () ∧ rNT.completeReply = .ok { type := "offer", sdp := "v=0 c" })
    ∧ (getDescription hNT rNT).ops
        = [WireOp.createOffer,
           WireOp.setLocalDescription { type := "offer", sdp := "v=0 a" },
           WireOp.getCompleteSdp]
    ∧ (getDescription hNT rNT).outcome
        = .ok { body := "v=0 c", contentType := "application/sdp" } :=
  ⟨⟨rfl, rfl, rfl, rfl⟩, by
    have hthm := c4_getDescription_flow hNT rNT
      { type := "offer", sdp := "v=0 a" } { type := "offer", sdp := "v=0 c" }
      rfl rfl rfl rfl
    exact ⟨by simpa [hNT, mkHandler] using hthm.1,
           by simpa [hNT, mkHandler] using hthm.2.2.2⟩⟩

/-- C9: once `close()` has run, `closed` stays true under every modelled
operation and event; later `getDescription`/`setDescription` calls reject
at once with the closed error and send nothing; `sendDtmf` returns `false`
and sends nothing; and a second `close()` is a no-op: it settles nothing
and re-sends no `CLOSE`. -/
theorem c9_closed_is_absorbing (h : Handler) (hc : h.closed = true) :
    (∀ op, (applyHOp h op).closed = true)
    ∧ (∀ r, getDescription h r
        = { state := h, ops := [], iceWait := none,
            outcome := .error "SessionDescriptionHandler closed" })
    ∧ (∀ sdpText reply, setDescription h sdpText reply
        = { state := h, ops := [],
            outcome := .error "SessionDescriptionHandler closed" })
    ∧ (∀ tones, sendDtmfCall h tones = (h, [], false))
    ∧ (∀ crid ok, closeHandler h crid ok = (h, [], [])) := by
  refine ⟨?_, ?_, ?_, ?_, ?_⟩
  · intro op
    cases op with
    | getDesc r => simp [applyHOp, getDescription, hc]
    | setDesc sdpText reply => simp [applyHOp, setDescription, hc]
    | dtmf tones => simp [applyHOp, sendDtmfCall, hc]
    | closeCall crid ok => simp [applyHOp, closeHandler, hc]
    | clientMessage rid err =>
      by_cases hr : rid ∈ h.pendingIds <;>
        simp [applyHOp, handleClientMessage, hr, hc]
    | timer rid =>
      by_cases hr : rid ∈ h.pendingIds <;>
        simp [applyHOp, timerExpire, hr, hc]
    | iceCandidate c =>
      cases c <;> simp [applyHOp, handleIceCandidateEvt, hc]
    | connState st => simpa [applyHOp, handleConnStateEvt] using hc
    | iceGathState st => simpa [applyHOp, handleIceGathStateEvt] using hc
  · intro r
    simp [getDescription, hc]
  · intro sdpText reply
    simp [setDescription, hc]
  · intro tones
    simp [sendDtmfCall, hc]
  · intro crid ok
    simp [closeHandler, hc]

/-- The state of a fresh handler after a first `close()` whose `CLOSE` send
succeeded. -/
def hClosed : Handler :=
  (closeHandler (mkHandler "s3" ⟨some "c1", none, none⟩) "rc" true).1

/-- Witness for C9: on a concretely closed handler, every clause holds; in
particular a second `close()` settles nothing and sends nothing. -/
theorem c9_closed_is_absorbing_witness :
    hClosed.closed = true
    ∧ closeHandler hClosed "rc2" true = (hClosed, [], [])
    ∧ sendDtmfCall hClosed "123" = (hClosed, [], false) :=
  ⟨rfl,
   (c9_closed_is_absorbing hClosed rfl).2.2.2.2 "rc2" true,
   (c9_closed_is_absorbing hClosed rfl).2.2.2.1 "123"⟩

/-- A handler with one in-flight request `r1`. -/
def hPend : Handler :=
  { (mkHandler "s1" ⟨some "c1", none, none⟩) with pendingIds := ["r1"] }

/-! ## Edge client request correlation (`src/client/sip-client.ts`)

`request(action, payload, timeout)` stores `{resolve, reject, timeoutId}`
under a locally unique id; `handleResponse` settles it by `payload.requestId`;
the timer rejects it with the timeout message; `close()` rejects everything
with the connection-closed error.  The pending map is modelled as an
association list from request id to the request's `action` string. -/

/-- One settlement of a client request's promise. -/
inductive CliSettle where
  | resolved (rid : String) (data : JVal)
  | rejected (rid : String) (msg : String)

/-- The request id a client settlement concerns. -/
def CliSettle.rid : CliSettle → String
  | .resolved r _ => r
  | .rejected r _ => r

/-- JavaScript `s || d` for an optional error string. -/
def strOrDefault (o : Option String) (d : String) : String :=
  match o with
  | some s => if s = "" then d else s
  | none => d

/-- `SipClient.handleResponse`: drop a response whose `requestId` matches no
pending entry; otherwise clear the timer, resolve with `data` when
`success` is truthy else reject with `Error(error || "Unknown error")`,
and delete the entry. -/
def cliHandleResponse (p : List (String × String)) (rid : String) (success : Bool)
    (data : JVal) (err : Option String) : List (String × String) × List CliSettle :=
  match p.lookup rid with
  | none => (p, [])
  | some _ =>
    (p.filter (fun q => q.1 != rid),
     [if success then CliSettle.resolved rid data
      else CliSettle.rejected rid (strOrDefault err "Unknown error")])

/-- The request timer of `SipClient.request` firing: if the entry is still
pending, reject with `Request timed out: <action>` and delete it. -/
def cliTimerFire (p : List (String × String)) (rid : String) :
    List (String × String) × List CliSettle :=
  match p.lookup rid with
  | none => (p, [])
  | some action =>
    (p.filter (fun q => q.1 != rid),
     [CliSettle.rejected rid ("Request timed out: " ++ action)])

/-- `SipClient.close()`: reject every pending request with the
connection-closed error and clear the map. -/
def cliClose (p : List (String × String)) :
    List (String × String) × List CliSettle :=
  ([], p.map (fun q => CliSettle.rejected q.1 "Connection closed"))

/-- An asynchronous event that can settle client requests. -/
inductive CliEvent where
  | response (rid : String) (success : Bool) (data : JVal) (err : Option String)
  | timerFire (rid : String)
  | closeEvt

/-- One event step of the client's pending map. -/
def cliStep (p : List (String × String)) : CliEvent → List (String × String) × List CliSettle
  | .response rid success data err => cliHandleResponse p rid success data err
  | .timerFire rid => cliTimerFire p rid
  | .closeEvt => cliClose p

/-- Run a sequence of client events. -/
def cliRun : List (String × String) → List CliEvent → List (String × String) × List CliSettle
  | p, [] => (p, [])
  | p, e :: es =>
    ((cliRun (cliStep p e).1 es).1, (cliStep p e).2 ++ (cliRun (cliStep p e).1 es).2)

/-- How many client settlements in `l` concern request `rid`. -/
def cliCount (rid : String) (l : List CliSettle) : Nat :=
  (l.filter (fun s => s.rid == rid)).length

/-- Whether a client event is capable of settling request `rid`. -/
def cliSettles (rid : String) : CliEvent → Bool
  | .response r _ _ _ => r == rid
  | .timerFire r => r == rid
  | .closeEvt => true

theorem cliCount_append (rid : String) (a b : List CliSettle) :
    cliCount rid (a ++ b) = cliCount rid a + cliCount rid b := by
  simp [cliCount, List.filter_append]

theorem cliRun_cons (p : List (String × String)) (e : CliEvent) (es : List CliEvent) :
    cliRun p (e :: es)
      = ((cliRun (cliStep p e).1 es).1, (cliStep p e).2 ++ (cliRun (cliStep p e).1 es).2) :=
  rfl

theorem lookup_filter_ne {p : List (String × String)} {r rid : String}
    (hne : r ≠ rid) :
    (p.filter (fun q => q.1 != r)).lookup rid = p.lookup rid := by
  induction p with
  | nil => rfl
  | cons q t ih =>
    by_cases hq : q.1 = r
    · have hrr : (rid == r) = false := by
        simp
        exact fun hcontra => hne hcontra.symm
      simp [List.filter_cons, hq, List.lookup, hrr, ih]
    · simp only [List.filter_cons, show (q.1 != r) = true by simpa using hq,
        if_pos, List.lookup]
      by_cases hq2 : (rid == q.1) = true <;> simp [hq2, ih]

theorem lookup_filter_self (p : List (String × String)) (rid : String) :
    (p.filter (fun q => q.1 != rid)).lookup rid = none := by
  induction p with
  | nil => rfl
  | cons q t ih =>
    by_cases hq : q.1 = rid
    · simp [List.filter_cons, hq, ih]
    · have hq2 : (rid == q.1) = false := by
        simp
        exact fun hcontra => hq hcontra.symm
      simp only [List.filter_cons, show (q.1 != rid) = true by simpa using hq,
        if_pos, List.lookup]
      simp [hq2, ih]

theorem keycount_eq_zero_of_lookup_none {p : List (String × String)} {rid : String}
    (hl : p.lookup rid = none) : (p.map Prod.fst).count rid = 0 := by
  induction p with
  | nil => rfl
  | cons q t ih =>
    by_cases hq : (rid == q.1) = true
    · simp [List.lookup, hq] at hl
    · simp only [List.lookup, hq] at hl
      have hne : q.1 ≠ rid := by
        intro hcontra
        exact hq (by simp [hcontra])
      simp [List.count_cons, ih hl, hne]

theorem key_mem_of_lookup_some {p : List (String × String)} {rid a : String}
    (hl : p.lookup rid = some a) : rid ∈ p.map Prod.fst := by
  induction p with
  | nil => simp [List.lookup] at hl
  | cons q t ih =>
    by_cases hq : (rid == q.1) = true
    · have heq : rid = q.1 := by simpa using hq
      simp only [List.map_cons, List.mem_cons]
      exact Or.inl heq
    · simp only [List.lookup, hq] at hl
      simp only [List.map_cons, List.mem_cons]
      exact Or.inr (ih hl)

theorem keys_filter_sublist (p : List (String × String)) (r : String) :
    ((p.filter (fun q => q.1 != r)).map Prod.fst).Sublist (p.map Prod.fst) :=
  (List.filter_sublist p).map Prod.fst

theorem cliCount_close_map (rid : String) (p : List (String × String)) :
    cliCount rid (p.map (fun q => CliSettle.rejected q.1 "Connection closed"))
      = (p.map Prod.fst).count rid := by
  induction p with
  | nil => rfl
  | cons q t ih =>
    by_cases hq : q.1 = rid
    · simp [cliCount, CliSettle.rid, List.count_cons, hq] at ih ⊢
      omega
    · simp [cliCount, CliSettle.rid, List.count_cons, hq] at ih ⊢
      simpa [hq] using ih

/-- Once `rid` has no pending client entry, no later event settles it and it
never re-enters the map. -/
theorem cli_absent_run (rid : String) :
    ∀ (tr : List CliEvent) (p : List (String × String)),
    p.lookup rid = none →
    cliCount rid (cliRun p tr).2 = 0 ∧ (cliRun p tr).1.lookup rid = none := by
  intro tr
  induction tr with
  | nil => intro p hab; exact ⟨rfl, hab⟩
  | cons e es ih =>
    intro p hab
    have hkey : cliCount rid (cliStep p e).2 = 0 ∧ (cliStep p e).1.lookup rid = none := by
      cases e with
      | response r success data err =>
        cases hr : p.lookup r with
        | none => simpa [cliStep, cliHandleResponse, hr, cliCount] using hab
        | some a =>
          have hrne : r ≠ rid := by
            intro hcontra
            rw [hcontra] at hr
            rw [hr] at hab
            exact Option.noConfusion hab
          constructor
          · cases success <;>
              simp [cliStep, cliHandleResponse, hr, cliCount, CliSettle.rid, hrne]
          · simp only [cliStep, cliHandleResponse, hr]
            rw [lookup_filter_ne hrne]
            exact hab
      | timerFire r =>
        cases hr : p.lookup r with
        | none => simpa [cliStep, cliTimerFire, hr, cliCount] using hab
        | some a =>
          have hrne : r ≠ rid := by
            intro hcontra
            rw [hcontra] at hr
            rw [hr] at hab
            exact Option.noConfusion hab
          constructor
          · simp [cliStep, cliTimerFire, hr, cliCount, CliSettle.rid, hrne]
          · simp only [cliStep, cliTimerFire, hr]
            rw [lookup_filter_ne hrne]
            exact hab
      | closeEvt =>
        exact ⟨by simp [cliStep, cliClose, cliCount_close_map,
                keycount_eq_zero_of_lookup_none hab],
               by simp [cliStep, cliClose, List.lookup]⟩
    have hrest := ih (cliStep p e).1 hkey.2
    rw [cliRun_cons]
    exact ⟨by rw [cliCount_append, hkey.1, hrest.1], hrest.2⟩

/-- While `rid` is pending (keys unique), running any event sequence settles
it exactly once if the sequence contains a settling event for it — a
matching response, its timer, or `close()` — and zero times otherwise. -/
theorem cli_pending_run (rid action : String) :
    ∀ (tr : List CliEvent) (p : List (String × String)),
    p.lookup rid = some action → (p.map Prod.fst).Nodup →
    cliCount rid (cliRun p tr).2 = (if tr.any (cliSettles rid) then 1 else 0) := by
  intro tr
  induction tr with
  | nil => intro p _ _; rfl
  | cons e es ih =>
    intro p hmem hnd
    by_cases hset : cliSettles rid e = true
    · have hsc : cliCount rid (cliStep p e).2 = 1 := by
        cases e with
        | response r success data err =>
          have hreq : r = rid := by simpa [cliSettles] using hset
          subst hreq
          cases success <;>
            simp [cliStep, cliHandleResponse, hmem, cliCount, CliSettle.rid]
        | timerFire r =>
          have hreq : r = rid := by simpa [cliSettles] using hset
          subst hreq
          simp [cliStep, cliTimerFire, hmem, cliCount, CliSettle.rid]
        | closeEvt =>
          have hcount : (p.map Prod.fst).count rid = 1 :=
            List.count_eq_one_of_mem hnd (key_mem_of_lookup_some hmem)
          simp [cliStep, cliClose, cliCount_close_map, hcount]
      have habs : (cliStep p e).1.lookup rid = none := by
        cases e with
        | response r success data err =>
          have hreq : r = rid := by simpa [cliSettles] using hset
          subst hreq
          simp only [cliStep, cliHandleResponse, hmem]
          exact lookup_filter_self p r
        | timerFire r =>
          have hreq : r = rid := by simpa [cliSettles] using hset
          subst hreq
          simp only [cliStep, cliTimerFire, hmem]
          exact lookup_filter_self p r
        | closeEvt => simp [cliStep, cliClose, List.lookup]
      have hrest := cli_absent_run rid es (cliStep p e).1 habs
      rw [cliRun_cons, cliCount_append, hsc, hrest.1]
      simp [List.any_cons, hset]
    · have hreq : ∀ r, cliSettles rid e = (r == rid) → r ≠ rid := by
        intro r hre hcontra
        rw [hcontra] at hre
        rw [hre] at hset
        exact hset (by simp)
      have hsc : cliCount rid (cliStep p e).2 = 0 := by
        cases e with
        | response r success data err =>
          have hrne : r ≠ rid := hreq r rfl
          cases hr : p.lookup r with
          | none => simp [cliStep, cliHandleResponse, hr, cliCount]
          | some a =>
            cases success <;>
              simp [cliStep, cliHandleResponse, hr, cliCount, CliSettle.rid, hrne]
        | timerFire r =>
          have hrne : r ≠ rid := hreq r rfl
          cases hr : p.lookup r with
          | none => simp [cliStep, cliTimerFire, hr, cliCount]
          | some a => simp [cliStep, cliTimerFire, hr, cliCount, CliSettle.rid, hrne]
        | closeEvt => exact absurd (by simp [cliSettles]) hset
      have hpres : (cliStep p e).1.lookup rid = some action ∧
          ((cliStep p e).1.map Prod.fst).Nodup := by
        cases e with
        | response r success data err =>
          have hrne : r ≠ rid := hreq r rfl
          cases hr : p.lookup r with
          | none => simpa [cliStep, cliHandleResponse, hr] using ⟨hmem, hnd⟩
          | some a =>
            constructor
            · simp only [cliStep, cliHandleResponse, hr]
              rw [lookup_filter_ne hrne]
              exact hmem
            · simp only [cliStep, cliHandleResponse, hr]
              exact hnd.sublist (keys_filter_sublist p r)
        | timerFire r =>
          have hrne : r ≠ rid := hreq r rfl
          cases hr : p.lookup r with
          | none => simpa [cliStep, cliTimerFire, hr] using ⟨hmem, hnd⟩
          | some a =>
            constructor
            · simp only [cliStep, cliTimerFire, hr]
              rw [lookup_filter_ne hrne]
              exact hmem
            · simp only [cliStep, cliTimerFire, hr]
              exact hnd.sublist (keys_filter_sublist p r)
        | closeEvt => exact absurd (by simp [cliSettles]) hset
      have hrest := ih (cliStep p e).1 hpres.1 hpres.2
      rw [cliRun_cons, cliCount_append, hsc, hrest]
      simp [List.any_cons, hset]

/-- Witness for C1: the hypotheses hold for a concrete handler with pending
request `r1`, and feeding it the matching response settles it exactly once. -/
theorem c1_rsdb_request_settles_exactly_once_witness :
    ("r1" ∈ hPend.pendingIds ∧ hPend.pendingIds.Nodup ∧ hPend.closed = false
      ∧ (∀ e ∈ [SdhEvent.response "r1" none], freshFor "r1" e = true))
    ∧ settleCount "r1" (sdhRun hPend [SdhEvent.response "r1" none]).2 = 1 :=
  ⟨⟨by simp [hPend, mkHandler], by simp [hPend, mkHandler], rfl,
    by intro e he; simp at he; simp [he, freshFor]⟩,
   (c1_rsdb_request_settles_exactly_once hPend "r1" [SdhEvent.response "r1" none]
      "s1" { clientId := none, iceGatheringTimeout := none, trickleCandidates := none }
      (by simp [hPend, mkHandler]) (by simp [hPend, mkHandler]) rfl
      (by intro e he; simp at he; simp [he, freshFor])).2.1
     ⟨SdhEvent.response "r1" none, by simp, by simp [settlesRid]⟩⟩

/-- C7: a pending `request(action, …)` on a connected client settles at most
once over any event sequence and exactly once as soon as a settling event
occurs; a matching `RESPONSE` resolves with `payload.data` on `success` and
rejects with `Error(payload.error)` otherwise, the timer rejects with
`Request timed out: <action>`, and a `RESPONSE` for an unknown (or already
settled) request id changes no state and settles nothing. -/
theorem c7_client_request_settles_exactly_once
    (p : List (String × String)) (rid action : String) (tr : List CliEvent)
    (data : JVal) (emsg : String)
    (hmem : p.lookup rid = some action)
    (hnd : (p.map Prod.fst).Nodup)
    (hem : emsg ≠ "") :
    cliCount rid (cliRun p tr).2 = (if tr.any (cliSettles rid) then 1 else 0)
    ∧ cliHandleResponse p rid true data none
        = (p.filter (fun q => q.1 != rid), [CliSettle.resolved rid data])
    ∧ cliHandleResponse p rid false data (some emsg)
        = (p.filter (fun q => q.1 != rid), [CliSettle.rejected rid emsg])
    ∧ cliTimerFire p rid
        = (p.filter (fun q => q.1 != rid),
           [CliSettle.rejected rid ("Request timed out: " ++ action)])
    ∧ (∀ (q : List (String × String)) (su : Bool) (dat : JVal) (er : Option String),
        q.lookup rid = none → cliHandleResponse q rid su dat er = (q, [])) := by
  refine ⟨cli_pending_run rid action tr p hmem hnd, ?_, ?_, ?_, ?_⟩
  · simp [cliHandleResponse, hmem]
  · simp [cliHandleResponse, hmem, strOrDefault, hem]
  · simp [cliTimerFire, hmem]
  · intro q su dat er hq
    simp [cliHandleResponse, hq]

/-- Witness for C7: a concrete pending `echo` request whose timer fires is
settled exactly once, with the timeout message naming the action. -/
theorem c7_client_request_settles_exactly_once_witness :
    ((([("req_1", "echo")] : List (String × String)).lookup "req_1" = some "echo"
      ∧ (([("req_1", "echo")] : List (String × String)).map Prod.fst).Nodup
      ∧ ("boom" : String) ≠ "")
    ∧ cliCount "req_1" (cliRun [("req_1", "echo")] [CliEvent.timerFire "req_1"]).2 = 1
    ∧ cliTimerFire [("req_1", "echo")] "req_1"
        = ([], [CliSettle.rejected "req_1" "Request timed out: echo"])) :=
  ⟨⟨rfl, by simp, by simp⟩,
   (c7_client_request_settles_exactly_once [("req_1", "echo")] "req_1" "echo"
      [CliEvent.timerFire "req_1"] JVal.null "boom" rfl (by simp) (by simp)).1,
   (c7_client_request_settles_exactly_once [("req_1", "echo")] "req_1" "echo"
      [CliEvent.timerFire "req_1"] JVal.null "boom" rfl (by simp) (by simp)).2.2.2.1⟩

/-! ## SIP registration updates (C2)

The client's `SIP_REGISTRATION_UPDATE` handler scans the pending map for the
first key starting with `sip_register_`; a payload with state `registered`
or truthy `success` resolves it, one with state `failed` or a truthy `error`
rejects it, and — unlike the connect handler, which keeps the entry on an
intermediate `connecting` — the entry is deleted no matter which branch ran.
The Hub's `handleSipRegister` replies to a successful `register()` with
`{ success: true, state: "registering" }`. -/

/-- `a.startsWith b` of the source, as a character-list prefix test. -/
def strStarts (pre s : String) : Bool := pre.data.isPrefixOf s.data

/-- One settlement of a `registerSip()` promise. -/
inductive RegSettle where
  | resolved (key : String)
  | rejected (key : String) (msg : String)
deriving DecidableEq

/-- The client's `SIP_REGISTRATION_UPDATE` case over the pending map (keys
only; `sip_register_*` entries are the `registerSip` promises). -/
def handleRegistrationUpdate (pending : List String) (payload : JVal) :
    List String × List RegSettle :=
  match pending.find? (fun k => strStarts "sip_register_" k) with
  | none => (pending, [])
  | some k =>
    let settles :=
      if jIsStr (jGet payload "state") "registered"
          || jTruthy (jGet payload "success") then
        [RegSettle.resolved k]
      else if jIsStr (jGet payload "state") "failed"
          || jTruthy (jGet payload "error") then
        [RegSettle.rejected k (jStrOr (jGet payload "error") "SIP registration failed")]
      else []
    (pending.filter (fun x => x != k), settles)

/-- The `SIP_REGISTRATION_UPDATE` payload the Hub's `handleSipRegister`
sends after `sipManager.register()` returns: state `registering` with
`success: true` on success, else state `failed`. -/
def hubRegisterReplyPayload (success : Bool) : JVal :=
  .obj [("success", .bool success),
        ("state", .str (if success then "registering" else "failed")),
        ("error", if success then .null
                  else .str "Failed to register with SIP server")]

/-- C2 counterexample: the Hub's reply to a successful `register()` carries
the intermediate state `registering` (together with `success: true`), yet
the client resolves the pending `registerSip()` promise on it at once and
deletes the pending entry — the claim's "an intermediate update with state
`registering` neither resolves nor rejects the promise and leaves the
pending entry in place" is false on the code; even a bare `registering`
update (no `success`) deletes the entry without settling the promise. -/
theorem c2_registering_update_resolves :
    handleRegistrationUpdate ["sip_register_1"] (hubRegisterReplyPayload true)
      = ([], [RegSettle.resolved "sip_register_1"])
    ∧ jGet (hubRegisterReplyPayload true) "state" = JVal.str "registering"
    ∧ handleRegistrationUpdate ["sip_register_1"]
        (.obj [("state", .str "registering")])
      = ([], []) := by
  exact ⟨rfl, rfl, rfl⟩

/-- C2 (amended): whenever the pending map holds a `sip_register_` entry,
any `SIP_REGISTRATION_UPDATE` deletes that entry; the promise resolves iff
the payload carries state `registered` or a truthy `success` (so the Hub's
`{success: true, state: "registering"}` reply resolves it immediately),
rejects iff it instead carries state `failed` or a truthy `error`, and an
update matching neither branch (such as a bare `registering`) settles
nothing, leaving the promise to its timeout. -/
theorem c2_registration_update_behaviour (pending : List String) (k : String)
    (payload : JVal)
    (hk : pending.find? (fun x => strStarts "sip_register_" x) = some k) :
    (handleRegistrationUpdate pending payload).1
        = pending.filter (fun x => x != k)
    ∧ ((handleRegistrationUpdate pending payload).2 = [RegSettle.resolved k]
        ↔ (jIsStr (jGet payload "state") "registered"
            || jTruthy (jGet payload "success")) = true)
    ∧ ((jIsStr (jGet payload "state") "registered"
            || jTruthy (jGet payload "success")) = false →
        (jIsStr (jGet payload "state") "failed"
            || jTruthy (jGet payload "error")) = true →
        (handleRegistrationUpdate pending payload).2
          = [RegSettle.rejected k
              (jStrOr (jGet payload "error") "SIP registration failed")])
    ∧ ((jIsStr (jGet payload "state") "registered"
            || jTruthy (jGet payload "success")) = false →
        (jIsStr (jGet payload "state") "failed"
            || jTruthy (jGet payload "error")) = false →
        (handleRegistrationUpdate pending payload).2 = []) := by
  refine ⟨?_, ?_, ?_, ?_⟩
  · rw [handleRegistrationUpdate, hk]
  · rw [handleRegistrationUpdate, hk]
    by_cases hres : (jIsStr (jGet payload "state") "registered"
        || jTruthy (jGet payload "success")) = true
    · simp [hres]
    · by_cases hrej : (jIsStr (jGet payload "state") "failed"
          || jTruthy (jGet payload "error")) = true <;>
        simp [hres, hrej]
  · intro hres hrej
    rw [handleRegistrationUpdate, hk]
    simp [hres, hrej]
  · intro hres hrej
    rw [handleRegistrationUpdate, hk]
    simp [hres, hrej]

/-- Witness for the amended C2: with a single pending `sip_register_1`
entry, the Hub's success reply resolves it and removes it, the Hub's
failure reply rejects it with its error string, and a bare `registering`
update removes it while settling nothing. -/
theorem c2_registration_update_behaviour_witness :
    (["sip_register_1"].find? (fun x => strStarts "sip_register_" x)
        = some "sip_register_1")
    ∧ (handleRegistrationUpdate ["sip_register_1"] (hubRegisterReplyPayload true)).2
        = [RegSettle.resolved "sip_register_1"]
    ∧ (handleRegistrationUpdate ["sip_register_1"] (hubRegisterReplyPayload false)).2
        = [RegSettle.rejected "sip_register_1" "Failed to register with SIP server"]
    ∧ (handleRegistrationUpdate ["sip_register_1"]
        (.obj [("state", .str "registering")])).2 = [] :=
  ⟨rfl,
   (c2_registration_update_behaviour ["sip_register_1"] "sip_register_1"
      (hubRegisterReplyPayload true) rfl).2.1.mpr rfl,
   (c2_registration_update_behaviour ["sip_register_1"] "sip_register_1"
      (hubRegisterReplyPayload false) rfl).2.2.1 rfl rfl,
   (c2_registration_update_behaviour ["sip_register_1"] "sip_register_1"
      (.obj [("state", .str "registering")]) rfl).2.2.2 rfl rfl⟩

/-! ## Hub client registry and message handling
(`ClientManager`, the worker entry point's admission and `REQUEST` action
dispatch). The registry is the ordered key list of the `Map` from client id
to port. -/

/-- A message envelope the Hub emits. -/
structure Envelope where
  type : String
  payload : JVal

/-- An observable Hub action: posting an envelope to one client's port, or
delegating to the asynchronous `handleMakeCall` flow. -/
inductive HubAction where
  | send (cid : String) (e : Envelope)
  | delegateMakeCall (cid : String) (payload : JVal)

/-- `ClientManager.registerClient` (`Map.set`): keys unchanged when present,
appended when new. -/
def registerClient (reg : List String) (cid : String) : List String :=
  if cid ∈ reg then reg else reg ++ [cid]

/-- `ClientManager.sendToClient`: silently a no-op (returns false) when the
id has no registered port. -/
def sendToClient (reg : List String) (cid : String) (e : Envelope) : List HubAction :=
  if cid ∈ reg then [HubAction.send cid e] else []

/-- `ClientManager.broadcastToAllClients`: best-effort post to every
registered client. -/
def broadcastToAllClients (reg : List String) (e : Envelope) : List HubAction :=
  reg.map (fun c => HubAction.send c e)

/-- `ClientManager.sendResponse`. -/
def sendResponse (reg : List String) (cid rid : String) (data : JVal)
    (success : Bool) : List HubAction :=
  sendToClient reg cid
    ⟨"RESPONSE", .obj [("requestId", .str rid), ("success", .bool success),
                       ("data", data)]⟩

/-- `ClientManager.sendErrorResponse`. -/
def sendErrorResponse (reg : List String) (cid rid errText : String) : List HubAction :=
  sendToClient reg cid
    ⟨"RESPONSE", .obj [("requestId", .str rid), ("success", .bool false),
                       ("error", .str errText)]⟩

/-- Presence test for a field (`x !== undefined`). -/
def jDefined (j : JVal) : Bool :=
  match j with
  | .null => false
  | _ => true

/-- The action strings the Hub's `REQUEST` handler has cases for. -/
def handledActions : List String :=
  ["getConnectedClients", "echo", "makeCall", "hangupCall", "answerCall",
   "sendDtmf", "setMuted"]

/-- The Hub's registered `REQUEST` handler: a switch over `action`, whose
default case sends the unknown-action error response. -/
def handleRequestAction (reg : List String) (clientId requestId action : String)
    (payload : JVal) : List HubAction :=
  if action = "getConnectedClients" then
    sendResponse reg clientId requestId
      (.obj [("count", .num reg.length), ("clients", .arr (reg.map JVal.str))]) true
  else if action = "echo" then
    sendResponse reg clientId requestId
      (.obj [("message", jOr (jGet payload "message") (.str "Echo response"))]) true
  else if action = "makeCall" then
    if jTruthy payload && jTruthy (jGet payload "target") then
      [HubAction.delegateMakeCall clientId payload]
    else
      sendErrorResponse reg clientId requestId "Invalid make call request: missing target"
  else if action = "hangupCall" then
    if jTruthy (jGet payload "callId") then
      sendResponse reg clientId requestId
        (.obj [("success", .bool true),
               ("message", .str ("Call " ++ jvShow (jGet payload "callId")
                  ++ " hungup successfully"))]) true
    else sendErrorResponse reg clientId requestId "No callId provided"
  else if action = "answerCall" then
    if jTruthy (jGet payload "callId") then
      sendResponse reg clientId requestId
        (.obj [("success", .bool true),
               ("message", .str ("Call " ++ jvShow (jGet payload "callId")
                  ++ " answered successfully"))]) true
    else sendErrorResponse reg clientId requestId "No callId provided"
  else if action = "sendDtmf" then
    if jTruthy (jGet payload "callId") && jTruthy (jGet payload "tones") then
      sendResponse reg clientId requestId
        (.obj [("success", .bool true),
               ("message", .str ("DTMF tones sent to call "
                  ++ jvShow (jGet payload "callId")))]) true
    else sendErrorResponse reg clientId requestId "Missing callId or tones"
  else if action = "setMuted" then
    if jDefined (jGet payload "callId") && jDefined (jGet payload "muted") then
      sendResponse reg clientId requestId
        (.obj [("success", .bool true),
               ("message", .str ("Call " ++ jvShow (jGet payload "callId") ++ " "
                  ++ (if jTruthy (jGet payload "muted") then "muted" else "unmuted")))]) true
    else sendErrorResponse reg clientId requestId "Missing callId or muted state"
  else
    sendErrorResponse reg clientId requestId ("Unknown request action: " ++ action)

/-- C6: a `REQUEST` from an admitted client whose action matches no case of
the Hub's `REQUEST` handler is answered with a `RESPONSE` to that client
whose payload carries the request's id, `success: false`, and
`error: "Unknown request action: <action>"`. -/
theorem c6_unknown_action_error (reg : List String)
    (clientId requestId action : String) (payload : JVal)
    (hmem : clientId ∈ reg)
    (hact : action ∉ handledActions) :
    handleRequestAction reg clientId requestId action payload
      = [HubAction.send clientId
          ⟨"RESPONSE", .obj [("requestId", .str requestId),
                             ("success", .bool false),
                             ("error", .str ("Unknown request action: " ++ action))]⟩] := by
  simp only [handledActions, List.mem_cons, List.not_mem_nil, or_false, not_or] at hact
  obtain ⟨h1, h2, h3, h4, h5, h6, h7⟩ := hact
  simp [handleRequestAction, h1, h2, h3, h4, h5, h6, h7,
    sendErrorResponse, sendToClient, hmem]

/-- Witness for C6: action `frobnicate` from admitted client `c1` yields the
error `Unknown request action: frobnicate` correlated to request `r2`. -/
theorem c6_unknown_action_error_witness :
    (("c1" ∈ (["c1"] : List String)) ∧ "frobnicate" ∉ handledActions)
    ∧ handleRequestAction ["c1"] "c1" "r2" "frobnicate" JVal.null
      = [HubAction.send "c1"
          ⟨"RESPONSE", .obj [("requestId", .str "r2"),
                             ("success", .bool false),
                             ("error", .str "Unknown request action: frobnicate")]⟩] :=
  ⟨⟨by simp, by decide⟩,
   c6_unknown_action_error ["c1"] "c1" "r2" "frobnicate" JVal.null
     (by simp) (by decide)⟩

/-! ## Admission (C8, C10) -/

/-- The default `CallState` sent in the admission `STATE_UPDATE`. -/
def defaultCallStatePayload : JVal :=
  .obj [("hasActiveCall", .bool false), ("activeCall", .null),
        ("registration", .obj [("state", .str "none")])]

/-- `message.clientId || <allocated id>` at admission. -/
def jsCidOr (envCid : Option String) (freshId : String) : String :=
  match envCid with
  | some c => if c = "" then freshId else c
  | none => freshId

/-- `MessageHandler.handleClientInit`: register the channel, reply to that
client with the default-`CallState` `STATE_UPDATE`, then broadcast
`CLIENT_CONNECTED` with `{clientId, totalClients}` read from the registry
after the registration. -/
def handleClientInit (reg : List String) (cid : String) :
    List String × List HubAction :=
  let reg1 := registerClient reg cid
  (reg1,
   sendToClient reg1 cid ⟨"STATE_UPDATE", defaultCallStatePayload⟩
     ++ broadcastToAllClients reg1
         ⟨"CLIENT_CONNECTED", .obj [("clientId", .str cid),
                                    ("totalClients", .num reg1.length)]⟩)

/-- The worker entry point for a `CLIENT_CONNECTED` envelope: allocate an id
when the envelope carries none, then run `handleClientInit`. -/
def admitClient (reg : List String) (envCid : Option String) (freshId : String) :
    List String × List HubAction :=
  handleClientInit reg (jsCidOr envCid freshId)

theorem registerClient_self_mem (reg : List String) (cid : String) :
    cid ∈ registerClient reg cid := by
  by_cases hc : cid ∈ reg <;> simp [registerClient, hc]

/-- Helper shared by the admission claims: the exact action list `admitClient`
produces. -/
theorem admitClient_actions (reg : List String) (envCid : Option String)
    (freshId : String) :
    admitClient reg envCid freshId
      = (registerClient reg (jsCidOr envCid freshId),
         HubAction.send (jsCidOr envCid freshId)
             ⟨"STATE_UPDATE", defaultCallStatePayload⟩
           :: (registerClient reg (jsCidOr envCid freshId)).map
               (fun c => HubAction.send c
                 ⟨"CLIENT_CONNECTED",
                  .obj [("clientId", .str (jsCidOr envCid freshId)),
                        ("totalClients",
                         .num (registerClient reg (jsCidOr envCid freshId)).length)]⟩)) := by
  simp [admitClient, handleClientInit, sendToClient,
    registerClient_self_mem reg (jsCidOr envCid freshId), broadcastToAllClients]

/-- C8: admission registers the channel (allocating an id when the envelope
carries none), first replies to that client with the default-`CallState`
`STATE_UPDATE`, then broadcasts `CLIENT_CONNECTED` whose `totalClients` is
the registry count after the registration; the count grows by one exactly
for a fresh id. -/
theorem c8_admission_messages (reg : List String) (envCid : Option String)
    (freshId : String) (hnd : reg.Nodup) :
    (let cid := jsCidOr envCid freshId
     let reg1 := registerClient reg cid
     admitClient reg envCid freshId
        = (reg1,
           HubAction.send cid ⟨"STATE_UPDATE", defaultCallStatePayload⟩
             :: reg1.map (fun c => HubAction.send c
                 ⟨"CLIENT_CONNECTED", .obj [("clientId", .str cid),
                                            ("totalClients", .num reg1.length)]⟩))
     ∧ cid ∈ reg1
     ∧ reg1.Nodup
     ∧ (cid ∉ reg → reg1.length = reg.length + 1)
     ∧ (cid ∈ reg → reg1.length = reg.length)) := by
  intro cid reg1
  refine ⟨admitClient_actions reg envCid freshId,
    registerClient_self_mem reg cid, ?_, ?_, ?_⟩
  · by_cases hc : cid ∈ reg
    · simpa [reg1, registerClient, hc] using hnd
    · simp [reg1, registerClient, hc, List.nodup_append, hnd]
  · intro hc
    simp [reg1, registerClient, hc]
  · intro hc
    simp [reg1, registerClient, hc]

/-- Witness for C8: admitting `c1` into an empty registry yields the
`STATE_UPDATE` reply followed by one broadcast with `totalClients = 1`. -/
theorem c8_admission_messages_witness :
    (([] : List String).Nodup)
    ∧ admitClient [] (some "c1") "fresh"
        = (["c1"],
           [HubAction.send "c1" ⟨"STATE_UPDATE", defaultCallStatePayload⟩,
            HubAction.send "c1"
              ⟨"CLIENT_CONNECTED", .obj [("clientId", .str "c1"),
                                         ("totalClients", .num 1)]⟩]) :=
  ⟨List.nodup_nil,
   (c8_admission_messages [] (some "c1") "fresh" List.nodup_nil).1⟩

/-! ## `initialize()` result (C10) -/

/-- The `InitializeResult` the client's promise resolves with. -/
structure InitResult where
  success : Bool
  clientId : String
  connectedClients : Nat
deriving DecidableEq

/-- `payload?.totalClients || 1`: the field, when present, is the numeric
registry count; absent (null) and `0` are falsy and fall back to `1`. -/
def totalClientsOr1 (j : JVal) : Nat :=
  match j with
  | .num n => if n = 0 then 1 else n
  | _ => 1

/-- The client's `STATE_UPDATE` case while `initialize` is pending: resolve
with `{success: true, clientId, connectedClients: payload?.totalClients || 1}`. -/
def initResultFromStateUpdate (clientId : String) (payload : JVal) : InitResult :=
  { success := true
    clientId := clientId
    connectedClients := totalClientsOr1 (jGet payload "totalClients") }

/-- C10: whatever the registry holds, the admission `STATE_UPDATE` the Hub
sends first carries the default `CallState` with no `totalClients` field, so
the `initialize()` promise resolves with `connectedClients = 1` (and
`success: true` and the client's own id). -/
theorem c10_initialize_resolves_one (reg : List String) (envCid : Option String)
    (freshId cid2 : String) :
    (admitClient reg envCid freshId).2.head?
      = some (HubAction.send (jsCidOr envCid freshId)
          ⟨"STATE_UPDATE", defaultCallStatePayload⟩)
    ∧ jGet defaultCallStatePayload "totalClients" = JVal.null
    ∧ initResultFromStateUpdate cid2 defaultCallStatePayload
        = { success := true, clientId := cid2, connectedClients := 1 } := by
  refine ⟨?_, rfl, rfl⟩
  rw [admitClient_actions reg envCid freshId]
  rfl

/-- Witness for C10: with three clients already registered, admission still
resolves `initialize()` with `connectedClients = 1`. -/
theorem c10_initialize_resolves_one_witness :
    ((["a", "b", "c"] : List String).Nodup)
    ∧ initResultFromStateUpdate "c9" defaultCallStatePayload
        = { success := true, clientId := "c9", connectedClients := 1 }
    ∧ (admitClient ["a", "b", "c"] none "c9").2.head?
        = some (HubAction.send "c9" ⟨"STATE_UPDATE", defaultCallStatePayload⟩) :=
  ⟨by simp,
   (c10_initialize_resolves_one ["a", "b", "c"] none "c9" "c9").2.2,
   (c10_initialize_resolves_one ["a", "b", "c"] none "c9" "c9").1⟩

end SipWorker
